import Mathlib

/-
Shallow embedding of `src/scraper.py` (class `SeenUnseenScraper`).

Strings are modelled as `List Char`.  The two module-level regular
expressions are embedded as deterministic parsers over `List Char`;
determinism is justified because in both patterns every repeated
character class (`[0-9]+`, `[w.]*`, `[a-z]+`, the optional `s` of
`https?`) is followed by a literal whose first character lies outside
the class, so Python's greedy backtracking engine has exactly one way
to match.  `re.match` has prefix semantics (trailing characters after
the matched prefix are tolerated), and `.` matches any character other
than a newline; both facts are reflected below.
-/

namespace SeenUnseen

abbrev Str := List Char

def toL (s : String) : Str := s.toList

/-- Matching of a literal pattern piece: `stripL p s = some r` exactly when
`s = p ++ r`. -/
def stripL : Str → Str → Option Str
  | [], s => some s
  | _ :: _, [] => none
  | c :: p, d :: s => if c = d then stripL p s else none

/-- Regex `.` outside a character class: consumes one character that is not a
newline. -/
def anyCh : Str → Option Str
  | [] => none
  | c :: r => if c = '\n' then none else some r

/-- Regex `https?://` at the start of both patterns: literal `http`, optional
`s`, literal `://`.  The optional `s` is taken exactly when present (`:` of
`://` can never equal `s`, so greedy matching is deterministic here). -/
def matchScheme (s : Str) : Option Str :=
  match stripL (toL "http") s with
  | none => none
  | some r =>
    match r with
    | 's' :: r2 => stripL (toL "://") r2
    | _ => stripL (toL "://") r

/-- Regex `([0-9]+)`: the (greedy, hence maximal) nonempty run of leading
digits, together with the rest of the string. -/
def digits1 (s : Str) : Option (Str × Str) :=
  match s.takeWhile Char.isDigit with
  | [] => none
  | ds => some (ds, s.dropWhile Char.isDigit)

/-- The character class `[w.]` of `target_url_pattern`. -/
def isWDot (c : Char) : Bool := c = 'w' || c = '.'

/-- Embeds `re.match(ep_url_pattern, s)` for
`ep_url_pattern = r'https?://seenunseen.in/episodes/([0-9]+)/([0-9]+)/([0-9]+)/episode-([0-9]+)-.+'`
(scraper.py line 15), returning the four capture groups on success.  The dot
of `seenunseen.in` is unescaped in the source, hence modelled by `anyCh`; the
trailing `.+` requires one non-newline character, and anything may follow
(prefix-match semantics of `re.match`). -/
def ep_url_match (s : Str) : Option (Str × Str × Str × Str) := do
  let s1 ← matchScheme s
  let s2 ← stripL (toL "seenunseen") s1
  let s3 ← anyCh s2
  let s4 ← stripL (toL "in/episodes/") s3
  let py ← digits1 s4
  let s6 ← stripL (toL "/") py.2
  let pm ← digits1 s6
  let s8 ← stripL (toL "/") pm.2
  let pd ← digits1 s8
  let s10 ← stripL (toL "/episode-") pd.2
  let pn ← digits1 s10
  let s12 ← stripL (toL "-") pn.2
  let _ ← anyCh s12
  pure (py.1, pm.1, pd.1, pn.1)

/-- Embeds `SeenUnseenScraper.__is_episode_url` (scraper.py lines 74-82). -/
def is_episode_url (s : Str) : Bool := (ep_url_match s).isSome

/-- Embeds `SeenUnseenScraper.__is_target_url` (scraper.py lines 85-93) for
`target_url_pattern = r'https?://[w.]*amazon.[a-z]+'` (line 16).  The dot
after `amazon` is unescaped in the source, so it matches any non-newline
character; `[a-z]+` needs one lowercase letter, and any trailing characters
are tolerated by `re.match`'s prefix semantics. -/
def is_target_url (s : Str) : Bool :=
  match matchScheme s with
  | none => false
  | some r =>
    match stripL (toL "amazon") (r.dropWhile isWDot) with
    | some (c :: l :: _) => (c != '\n') && l.isLower
    | _ => false

/-- Embeds Python `int` applied to a capture group (a nonempty digit
string). -/
def natOfDigits (s : Str) : Nat := s.foldl (fun a c => a * 10 + (c.toNat - 48)) 0

/-- Proleptic-Gregorian leap year rule used by `datetime.datetime`. -/
def isLeap (y : Nat) : Bool := (y % 4 == 0 && y % 100 != 0) || (y % 400 == 0)

def daysInMonth (y m : Nat) : Nat :=
  if m = 2 then (if isLeap y then 29 else 28)
  else if m = 4 ∨ m = 6 ∨ m = 9 ∨ m = 11 then 30
  else 31

/-- A `datetime.datetime` value at midnight (only year/month/day are ever
set by the scraper). -/
structure PyDate where
  year : Nat
  month : Nat
  day : Nat
deriving DecidableEq

/-- Embeds the `dt.datetime(year, month, day)` constructor: `none` models the
`ValueError` raised on out-of-range components (`datetime` accepts
`1 <= year <= 9999`, `1 <= month <= 12`, `1 <= day <= ` days in month). -/
def datetime (y m d : Nat) : Option PyDate :=
  if 1 ≤ y ∧ y ≤ 9999 ∧ 1 ≤ m ∧ m ≤ 12 ∧ 1 ≤ d ∧ d ≤ daysInMonth y m
  then some ⟨y, m, d⟩ else none

/-- Python exceptions that the scraper can raise, as values. -/
inductive PyErr where
  | attributeError  -- None.findAll(...) on a failed base-page fetch
  | keyError        -- a['href'] on an anchor without an href attribute
  | indexError      -- a.contents[0] on an anchor with no children
  | valueError      -- dt.datetime(...) on an invalid calendar date
  | typeError       -- ep_info[0] when ep_info is None
deriving DecidableEq

/-- Embeds `SeenUnseenScraper.__get_episode_info` (scraper.py lines 56-71):
`.ok none` models returning `None` (no regex match), `.error` models an
exception escaping (invalid date), `.ok (some (n, d))` models returning the
tuple `(ep_num, ep_date)`. -/
def get_episode_info (s : Str) : Except PyErr (Option (Nat × PyDate)) :=
  match ep_url_match s with
  | none => .ok none
  | some (y, m, d, n) =>
    match datetime (natOfDigits y) (natOfDigits m) (natOfDigits d) with
    | none => .error .valueError
    | some date => .ok (some (natOfDigits n, date))

instance {e a : Type} [DecidableEq e] [DecidableEq a] : DecidableEq (Except e a) := fun x y =>
  match x, y with
  | .error u, .error v =>
    if h : u = v then .isTrue (by rw [h]) else .isFalse (by intro hc; cases hc; exact h rfl)
  | .error _, .ok _ => .isFalse (by intro hc; cases hc)
  | .ok _, .error _ => .isFalse (by intro hc; cases hc)
  | .ok u, .ok v =>
    if h : u = v then .isTrue (by rw [h]) else .isFalse (by intro hc; cases hc; exact h rfl)

/-- An anchor element of a parsed page: `href` is absent when the `<a>` tag
carries no `href` attribute (then `a['href']` raises `KeyError`), and
`contents` is the list of the tag's children (then `a.contents[0]` raises
`IndexError` when empty). -/
structure Anchor where
  href : Option Str
  contents : List Str
deriving DecidableEq

/-- A parsed page (`bs4.BeautifulSoup`), exposing exactly what the scraper
uses: `findAll('a')`. -/
structure Page where
  anchors : List Anchor
deriving DecidableEq

/-- Outcome of `req.get(url)`: either a `req.exceptions.RequestException`
carrying an error text, or a response with a status code whose body parses
(via BeautifulSoup, which never fails) to a `Page`.  HTTP error status codes
do NOT raise; `requests` only raises on transport-level failures. -/
inductive FetchOutcome where
  | raises (err : Str)
  | response (status : Nat) (page : Page)

/-- The network, as a map from URL to fetch outcome (the pipeline is
sequential and fetches each URL at most once per loop step). -/
abbrev Env := Str → FetchOutcome

/-- The exact string logged by `__get_page_soup` on a failed fetch
(scraper.py line 50).  The source passes a PLAIN string literal, not an
f-string, so the placeholders are never interpolated: the logged line is
this constant, whatever the URL and error were. -/
def failLogMsg : Str := toL "Failed getting URL : {url} ; Error : {exp}"

def basePageMsg : Str := toL "Base page fetched"

/-- The f-string `f'Episode fetched : {ep_url}'` of scraper.py line 137
(this one IS an f-string in the source). -/
def epFetchedMsg (ep : Str) : Str := toL "Episode fetched : " ++ ep

/-- Embeds `__write_log` (scraper.py lines 96-101): a no-op when no log file
is open.  Log lines are modelled by their message; the wall-clock timestamp
prefix `[ YYYY-MM-DD HH:MM:SS ] : ` is ambient time and not modelled. -/
def writeLog (logOn : Bool) (msg : Str) : List Str :=
  if logOn then [msg] else []

/-- Embeds `__get_page_soup` (scraper.py lines 37-53): returns the parsed
page and the log lines written.  On a transport exception it logs the
(uninterpolated) failure literal and returns `None`; any response, whatever
its status code, is parsed and returned. -/
def get_page_soup (env : Env) (logOn : Bool) (url : Str) : Option Page × List Str :=
  match env url with
  | .raises _ => (none, writeLog logOn failLogMsg)
  | .response _ page => (some page, [])

/-- Embeds `a['href']` (scraper.py lines 125 and 140): `KeyError` when the
anchor has no href attribute. -/
def hrefOf (a : Anchor) : Except PyErr Str :=
  match a.href with
  | some h => .ok h
  | none => .error .keyError

/-- Embeds `a.contents[0]` (scraper.py line 140): `IndexError` when the
anchor has no children. -/
def contents0 (a : Anchor) : Except PyErr Str :=
  match a.contents with
  | t :: _ => .ok t
  | [] => .error .indexError

/-- Embeds the comprehension
`[a['href'] for a in base_page.findAll('a') if self.__is_episode_url(a['href'])]`
(scraper.py line 125), evaluated left to right, erroring at the first anchor
without an href. -/
def collectEpUrls : List Anchor → Except PyErr (List Str)
  | [] => .ok []
  | a :: rest => do
    let h ← hrefOf a
    let tl ← collectEpUrls rest
    pure (if is_episode_url h then h :: tl else tl)

/-- Embeds the comprehension
`[a.contents[0] for a in ep_page.findAll('a') if self.__is_target_url(a['href'])]`
(scraper.py line 140), evaluated left to right. -/
def collectBookTexts : List Anchor → Except PyErr (List Str)
  | [] => .ok []
  | a :: rest => do
    let h ← hrefOf a
    if is_target_url h then do
      let t ← contents0 a
      let tl ← collectBookTexts rest
      pure (t :: tl)
    else
      collectBookTexts rest

/-- Embeds `set(...)` on the collected episode URLs (scraper.py line 125).
CPython iterates a set in an unspecified, hash-dependent order; this model
fixes one deduplicated order (the claims below do not depend on which). -/
def dedupUrls : List Str → List Str
  | [] => []
  | x :: xs =>
    let r := dedupUrls xs
    if x ∈ r then r else x :: r

/-- One row `(Episode, Book)` of the result dataframe. -/
abbrev Row := Nat × Str

/-- Embeds `pd.concat(df_list)` over the per-episode dataframes, each of
which is `(ep_num, books)` expanded to one row per book
(scraper.py lines 146-150 and 155). -/
def rowsOf : List (Nat × List Str) → List Row
  | [] => []
  | (n, books) :: rest => (books.map fun b => (n, b)) ++ rowsOf rest

/-- Embeds one iteration of the episode loop (scraper.py lines 129-150),
without the `time.sleep` pacing (line 132-133), which has no observable
effect in this model.  `.ok none` models `continue` (skipped episode),
`.ok (some (n, books))` models appending that episode's dataframe, `.error`
models an exception escaping the loop body.  The second component is the
list of log lines written during the iteration. -/
def scrapeEpisode (env : Env) (logOn : Bool) (ep : Str) :
    Except PyErr (Option (Nat × List Str)) × List Str :=
  match get_page_soup env logOn ep with
  | (none, lg) => (.ok none, lg)
  | (some page, lg) =>
    let lg2 := lg ++ writeLog logOn (epFetchedMsg ep)
    match collectBookTexts page.anchors with
    | .error e => (.error e, lg2)
    | .ok books =>
      if books.length = 0 then (.ok none, lg2)
      else
        match get_episode_info ep with
        | .error e => (.error e, lg2)
        | .ok none => (.error .typeError, lg2)  -- ep_info[0] with ep_info = None
        | .ok (some info) => (.ok (some (info.1, books)), lg2)

/-- The episode loop (scraper.py lines 128-150): the accumulated `df_list`,
or the first exception raised, together with all log lines written. -/
def scrapeEpisodes (env : Env) (logOn : Bool) :
    List Str → Except PyErr (List (Nat × List Str)) × List Str
  | [] => (.ok [], [])
  | ep :: rest =>
    match scrapeEpisode env logOn ep with
    | (.error e, lg) => (.error e, lg)
    | (.ok contrib, lg) =>
      match scrapeEpisodes env logOn rest with
      | (.error e, lgs) => (.error e, lg ++ lgs)
      | (.ok dfs, lgs) =>
        (.ok (match contrib with | none => dfs | some df => df :: dfs), lg ++ lgs)

/-- Embeds `__get_books_as_dataframe` (scraper.py lines 104-156).  `None` on
a failed base-page fetch makes line 125 (`base_page.findAll`) raise
`AttributeError`; the success log line of line 122 is written before that,
unconditionally. -/
def get_books_inner (env : Env) (logOn : Bool) (baseUrl : Str) :
    Except PyErr (Option (List Row)) × List Str :=
  match get_page_soup env logOn baseUrl with
  | (basePage, lg1) =>
    let lg2 := lg1 ++ writeLog logOn basePageMsg
    match basePage with
    | none => (.error .attributeError, lg2)
    | some page =>
      match collectEpUrls page.anchors with
      | .error e => (.error e, lg2)
      | .ok urls =>
        match scrapeEpisodes env logOn (dedupUrls urls) with
        | (r, lg3) =>
          (match r with
           | .error e => .error e
           | .ok dfs => .ok (if dfs.length = 0 then none else some (rowsOf dfs)),
           lg2 ++ lg3)

/-- `self.base_url + str(year) + '/'` (scraper.py line 31). -/
def base_url_year (year : Nat) : Str :=
  toL "https://seenunseen.in/episodes/" ++ toL (toString year) ++ toL "/"

/-- Operations on the log-file handle performed by `get_books`. -/
inductive FileEv where
  | openEv
  | closeEv
deriving DecidableEq

/-- Observable outcome of one `get_books()` invocation. -/
structure RunOut where
  result : Except PyErr (Option (List Row))
  log : List Str
  fileEvents : List FileEv
  logFileOpenAfter : Bool

/-- Embeds `get_books` (scraper.py lines 159-185): opens the log file when a
path is configured (`logOn`), runs `__get_books_as_dataframe` under
`try/except/finally` (the `except` clause only re-raises), and in `finally`
closes the file and resets `self.log_file` to `None` on every exit path,
whether `result` is a value or a propagating exception. -/
def get_books (env : Env) (year : Nat) (logOn : Bool) : RunOut :=
  let openEvs := if logOn then [FileEv.openEv] else []
  match get_books_inner env logOn (base_url_year year) with
  | (r, lg) =>
    let closeEvs := if logOn then [FileEv.closeEv] else []
    { result := r, log := lg, fileEvents := openEvs ++ closeEvs, logFileOpenAfter := false }

/-
Spec-side definitions.  `TargetSpec` restates, as a structural property of
the URL string, what `is_target_url` actually accepts; it is compared with
the executable embedding in the amended claim C1.  `epUrlOf` builds a URL
from the components (scheme, Y, M, D, N, slug) of the episode template.
-/

/-- A string all of whose characters lie in the class `[w.]`. -/
def WDotStr (sub : Str) : Prop := ∀ x ∈ sub, isWDot x = true

/-- Structural characterisation of the URLs accepted by the target pattern:
scheme, a run of `w`/`.` characters, the token `amazon`, one arbitrary
non-newline character, one lowercase ASCII letter, and an arbitrary tail. -/
def TargetSpec (s : Str) : Prop :=
  ∃ (sub : Str) (c l : Char) (rest : Str),
    WDotStr sub ∧ c ≠ '\n' ∧ l.isLower = true ∧
    (s = toL "http://" ++ (sub ++ (toL "amazon" ++ (c :: l :: rest))) ∨
     s = toL "https://" ++ (sub ++ (toL "amazon" ++ (c :: l :: rest))))

/-- A nonempty string of ASCII digits (what a `([0-9]+)` group captures). -/
def DigitsStr (s : Str) : Prop := s ≠ [] ∧ ∀ c ∈ s, c.isDigit = true

instance (s : Str) : Decidable (DigitsStr s) :=
  decidable_of_iff (s ≠ [] ∧ ∀ c ∈ s, c.isDigit = true) Iff.rfl

/-- A URL built from the components of the episode template
`https?://seenunseen.in/episodes/<Y>/<M>/<D>/episode-<N>-<slug>`. -/
def epUrlOf (sch y m d n slug : Str) : Str :=
  sch ++ (toL "seenunseen.in/episodes/" ++
    (y ++ ('/' :: (m ++ ('/' :: (d ++ (toL "/episode-" ++ (n ++ ('-' :: slug)))))))))

/- Concrete fixtures used by the claim witnesses. -/

def pageEmpty : Page := ⟨[]⟩

def envRaise : Env := fun _ => .raises (toL "boom")

def envEmptyIndex : Env := fun _ => .response 200 pageEmpty

def ep1Url : Str := toL "https://seenunseen.in/episodes/2021/3/4/episode-212-art"

def amazonAnchor : Anchor := ⟨some (toL "https://www.amazon.com/b"), [toL "Book A"]⟩

def otherAnchor : Anchor := ⟨some (toL "https://other.example"), [toL "ignored"]⟩

def noHrefAnchor : Anchor := ⟨none, [toL "x"]⟩

def pageEp : Page := ⟨[amazonAnchor, otherAnchor]⟩

def pageIndex1 : Page := ⟨[⟨some ep1Url, [toL "Ep 212"]⟩]⟩

def pageNoTarget : Page := ⟨[otherAnchor]⟩

def pageNoHref : Page := ⟨[noHrefAnchor]⟩

/-- Index page listing one episode; that episode's page has one Amazon
anchor and one non-target anchor. -/
def envScenario : Env := fun u =>
  if u = base_url_year 2021 then .response 200 pageIndex1
  else if u = ep1Url then .response 200 pageEp
  else .raises (toL "x")

/-- Index page listing one episode; the episode page has an anchor without
an href attribute. -/
def envEpNoHref : Env := fun u =>
  if u = base_url_year 2021 then .response 200 pageIndex1
  else .response 200 pageNoHref

/-- Index page whose only anchor has no href attribute. -/
def envIndexNoHref : Env := fun u =>
  if u = base_url_year 2021 then .response 200 pageNoHref
  else .raises (toL "x")

/-- Other index page also listing one episode without target anchors. -/
def envNoTarget : Env := fun _ => .response 200 pageNoTarget

/-- Boolean check that the first argument leads the second. -/
def hasLead : Str → Str → Bool
  | [], _ => true
  | _ :: _, [] => false
  | c :: p, d :: s => (c == d) && hasLead p s

/-- Boolean substring check: does the first argument occur inside the
second? -/
def hasSub (p : Str) : Str → Bool
  | [] => hasLead p []
  | c :: t => hasLead p (c :: t) || hasSub p t

/- Helper lemmas about the regex embedding. -/

theorem stripL_append (p t : Str) : stripL p (p ++ t) = some t := by
  induction p with
  | nil => rfl
  | cons c p ih => simp [stripL, ih]

theorem stripL_eq_some {p s r : Str} (h : stripL p s = some r) : s = p ++ r := by
  induction p generalizing s with
  | nil =>
    simp only [stripL, Option.some.injEq] at h
    simp [h]
  | cons c p ih =>
    cases s with
    | nil => simp [stripL] at h
    | cons d s2 =>
      simp only [stripL] at h
      split at h
      · rename_i hcd
        rw [List.cons_append, ← hcd, ih h]
      · exact absurd h (by simp)

theorem matchScheme_http (t : Str) : matchScheme (toL "http://" ++ t) = some t := rfl

theorem matchScheme_https (t : Str) : matchScheme (toL "https://" ++ t) = some t := rfl

theorem matchScheme_inv {s r : Str} (h : matchScheme s = some r) :
    s = toL "http://" ++ r ∨ s = toL "https://" ++ r := by
  simp only [matchScheme] at h
  split at h
  · exact absurd h (by simp)
  · rename_i r1 heq
    have hs := stripL_eq_some heq
    split at h
    · rename_i r2
      have hr2 := stripL_eq_some h
      right
      subst hs hr2
      rfl
    · rename_i hnot
      have hr1 := stripL_eq_some h
      left
      subst hs hr1
      rfl

theorem takeWhile_all_append {p : Char → Bool} {a : Str} (c : Char) (t : Str)
    (ha : ∀ x ∈ a, p x = true) (hc : p c = false) :
    (a ++ c :: t).takeWhile p = a := by
  induction a with
  | nil => simp [List.takeWhile, hc]
  | cons x a ih =>
    have hx : p x = true := ha x (by simp)
    have ih2 := ih (fun y hy => ha y (by simp [hy]))
    simp [List.takeWhile, hx, ih2]

theorem dropWhile_all_append {p : Char → Bool} {a : Str} (t : Str)
    (ha : ∀ x ∈ a, p x = true) :
    (a ++ t).dropWhile p = t.dropWhile p := by
  induction a with
  | nil => rfl
  | cons x a ih =>
    have hx : p x = true := ha x (by simp)
    have ih2 := ih (fun y hy => ha y (by simp [hy]))
    simp [List.dropWhile, hx, ih2]

theorem dropWhile_cons_neg {p : Char → Bool} {c : Char} {t : Str} (hc : p c = false) :
    (c :: t).dropWhile p = c :: t := by
  simp [List.dropWhile, hc]

theorem dropWhile_all_append_neg {p : Char → Bool} {a : Str} (c : Char) (t : Str)
    (ha : ∀ x ∈ a, p x = true) (hc : p c = false) :
    (a ++ c :: t).dropWhile p = c :: t := by
  rw [dropWhile_all_append _ ha, dropWhile_cons_neg hc]

theorem digits1_append (a : Str) (c : Char) (t : Str)
    (ha : DigitsStr a) (hc : c.isDigit = false) :
    digits1 (a ++ c :: t) = some (a, c :: t) := by
  obtain ⟨hne, hall⟩ := ha
  cases a with
  | nil => exact absurd rfl hne
  | cons x a2 =>
    have h1 : ((x :: a2) ++ c :: t).takeWhile Char.isDigit = x :: a2 :=
      takeWhile_all_append c t hall hc
    have h2 : ((x :: a2) ++ c :: t).dropWhile Char.isDigit = c :: t :=
      dropWhile_all_append_neg c t hall hc
    simp only [digits1, h1, h2]

/-- Parsing a URL built from template components recovers exactly those
components as the four capture groups. -/
theorem ep_url_match_build (sch y m d n sl : Str) (c0 : Char)
    (hsch : sch = toL "http://" ∨ sch = toL "https://")
    (hy : DigitsStr y) (hm : DigitsStr m) (hd : DigitsStr d) (hn : DigitsStr n)
    (hc0 : c0 ≠ '\n') :
    ep_url_match (epUrlOf sch y m d n (c0 :: sl)) = some (y, m, d, n) := by
  have h0 : matchScheme (epUrlOf sch y m d n (c0 :: sl)) =
      some (toL "seenunseen.in/episodes/" ++
        (y ++ ('/' :: (m ++ ('/' :: (d ++ (toL "/episode-" ++ (n ++ ('-' :: (c0 :: sl)))))))))) := by
    rcases hsch with h | h
    · subst h; exact matchScheme_http _
    · subst h; exact matchScheme_https _
  have h1 : stripL (toL "seenunseen") (toL "seenunseen.in/episodes/" ++
      (y ++ ('/' :: (m ++ ('/' :: (d ++ (toL "/episode-" ++ (n ++ ('-' :: (c0 :: sl)))))))))) =
      some ('.' :: (toL "in/episodes/" ++
        (y ++ ('/' :: (m ++ ('/' :: (d ++ (toL "/episode-" ++ (n ++ ('-' :: (c0 :: sl))))))))))) :=
    stripL_append (toL "seenunseen") _
  have h2 : anyCh ('.' :: (toL "in/episodes/" ++
      (y ++ ('/' :: (m ++ ('/' :: (d ++ (toL "/episode-" ++ (n ++ ('-' :: (c0 :: sl))))))))))) =
      some (toL "in/episodes/" ++
        (y ++ ('/' :: (m ++ ('/' :: (d ++ (toL "/episode-" ++ (n ++ ('-' :: (c0 :: sl)))))))))) := rfl
  have h3 : stripL (toL "in/episodes/") (toL "in/episodes/" ++
      (y ++ ('/' :: (m ++ ('/' :: (d ++ (toL "/episode-" ++ (n ++ ('-' :: (c0 :: sl)))))))))) =
      some (y ++ ('/' :: (m ++ ('/' :: (d ++ (toL "/episode-" ++ (n ++ ('-' :: (c0 :: sl))))))))) :=
    stripL_append (toL "in/episodes/") _
  have h4 : digits1 (y ++ ('/' :: (m ++ ('/' :: (d ++ (toL "/episode-" ++ (n ++ ('-' :: (c0 :: sl))))))))) =
      some (y, '/' :: (m ++ ('/' :: (d ++ (toL "/episode-" ++ (n ++ ('-' :: (c0 :: sl)))))))) :=
    digits1_append y '/' _ hy (by decide)
  have h5 : stripL (toL "/") ('/' :: (m ++ ('/' :: (d ++ (toL "/episode-" ++ (n ++ ('-' :: (c0 :: sl)))))))) =
      some (m ++ ('/' :: (d ++ (toL "/episode-" ++ (n ++ ('-' :: (c0 :: sl))))))) :=
    stripL_append (toL "/") _
  have h6 : digits1 (m ++ ('/' :: (d ++ (toL "/episode-" ++ (n ++ ('-' :: (c0 :: sl))))))) =
      some (m, '/' :: (d ++ (toL "/episode-" ++ (n ++ ('-' :: (c0 :: sl)))))) :=
    digits1_append m '/' _ hm (by decide)
  have h7 : stripL (toL "/") ('/' :: (d ++ (toL "/episode-" ++ (n ++ ('-' :: (c0 :: sl)))))) =
      some (d ++ (toL "/episode-" ++ (n ++ ('-' :: (c0 :: sl))))) :=
    stripL_append (toL "/") _
  have h8 : digits1 (d ++ (toL "/episode-" ++ (n ++ ('-' :: (c0 :: sl))))) =
      some (d, '/' :: (toL "episode-" ++ (n ++ ('-' :: (c0 :: sl))))) :=
    digits1_append d '/' (toL "episode-" ++ (n ++ ('-' :: (c0 :: sl)))) hd (by decide)
  have h9 : stripL (toL "/episode-") ('/' :: (toL "episode-" ++ (n ++ ('-' :: (c0 :: sl))))) =
      some (n ++ ('-' :: (c0 :: sl))) :=
    stripL_append (toL "/episode-") _
  have h10 : digits1 (n ++ ('-' :: (c0 :: sl))) = some (n, '-' :: (c0 :: sl)) :=
    digits1_append n '-' _ hn (by decide)
  have h11 : stripL (toL "-") ('-' :: (c0 :: sl)) = some (c0 :: sl) :=
    stripL_append (toL "-") _
  have h12 : anyCh (c0 :: sl) = some sl := by
    simp [anyCh, hc0]
  simp only [ep_url_match, h0, h1, h2, h3, h4, h5, h6, h7, h8, h9, h10, h11, h12,
    Option.bind_eq_bind', Option.some_bind, Option.pure_def]

/- Helper lemmas about the pipeline. -/

theorem except_bind_ok {ε α β : Type} (a : α) (f : α → Except ε β) :
    (Except.ok a >>= f) = f a := rfl

theorem except_bind_error {ε α β : Type} (x : ε) (f : α → Except ε β) :
    ((Except.error x : Except ε α) >>= f) = Except.error x := rfl

theorem except_map_ok {ε α β : Type} (a : α) (f : α → β) :
    (f <$> (Except.ok a : Except ε α)) = Except.ok (f a) := rfl

theorem except_map_error {ε α β : Type} (x : ε) (f : α → β) :
    (f <$> (Except.error x : Except ε α)) = (Except.error x : Except ε β) := rfl

theorem mem_dedupUrls {x : Str} {l : List Str} (h : x ∈ l) : x ∈ dedupUrls l := by
  induction l with
  | nil => simp at h
  | cons a rest ih =>
    simp only [dedupUrls]
    rcases List.mem_cons.mp h with rfl | h2
    · split
      · assumption
      · exact List.mem_cons_self _ _
    · have hx := ih h2
      split
      · exact hx
      · exact List.mem_cons_of_mem _ hx

/-- The accumulated `df_list` is empty exactly when every episode of the
list was skipped (fetch failure or zero target anchors). -/
theorem scrapeEpisodes_ok_nil_iff (env : Env) (logOn : Bool) (eps : List Str)
    (dfs : List (Nat × List Str)) (lg : List Str)
    (h : scrapeEpisodes env logOn eps = (.ok dfs, lg)) :
    dfs = [] ↔ ∀ ep ∈ eps, (scrapeEpisode env logOn ep).1 = .ok none := by
  induction eps generalizing dfs lg with
  | nil =>
    simp only [scrapeEpisodes, Prod.mk.injEq] at h
    obtain ⟨h1, -⟩ := h
    simp [← Except.ok.inj h1]
  | cons ep rest ih =>
    simp only [scrapeEpisodes] at h
    cases hep : scrapeEpisode env logOn ep with
    | mk r1 lg1 =>
      rw [hep] at h
      cases r1 with
      | error e => simp at h
      | ok contrib =>
        cases hrest : scrapeEpisodes env logOn rest with
        | mk r2 lg2 =>
          rw [hrest] at h
          cases r2 with
          | error e => simp at h
          | ok dfs2 =>
            simp only [Prod.mk.injEq, Except.ok.injEq] at h
            obtain ⟨h1, -⟩ := h
            cases contrib with
            | none =>
              subst h1
              rw [ih dfs2 lg2 hrest]
              simp [List.forall_mem_cons, hep]
            | some df =>
              subst h1
              simp [List.forall_mem_cons, hep]

/-- An anchor without an href makes the index-page comprehension raise
`KeyError` (the only error that comprehension can raise). -/
theorem collectEpUrls_missing_href (l : List Anchor)
    (h : ∃ a ∈ l, a.href = none) : collectEpUrls l = .error .keyError := by
  induction l with
  | nil => simp at h
  | cons a rest ih =>
    rcases h with ⟨b, hb, hbn⟩
    rcases List.mem_cons.mp hb with rfl | hb2
    · simp [collectEpUrls, hrefOf, hbn, except_bind_error]
    · cases ha : a.href with
      | none => simp [collectEpUrls, hrefOf, ha, except_bind_error]
      | some hh =>
        simp [collectEpUrls, hrefOf, ha, ih ⟨b, hb2, hbn⟩, except_bind_ok,
          except_bind_error, except_map_error]

/-- An anchor without an href makes the episode-page comprehension raise
(either `KeyError` at that anchor or `IndexError` at an earlier childless
target anchor). -/
theorem collectBookTexts_missing_href (l : List Anchor)
    (h : ∃ a ∈ l, a.href = none) : ∃ e, collectBookTexts l = .error e := by
  induction l with
  | nil => simp at h
  | cons a rest ih =>
    rcases h with ⟨b, hb, hbn⟩
    rcases List.mem_cons.mp hb with rfl | hb2
    · exact ⟨.keyError, by simp [collectBookTexts, hrefOf, hbn, except_bind_error]⟩
    · cases ha : a.href with
      | none => exact ⟨.keyError, by simp [collectBookTexts, hrefOf, ha, except_bind_error]⟩
      | some hh =>
        obtain ⟨e, he⟩ := ih ⟨b, hb2, hbn⟩
        by_cases ht : is_target_url hh
        · cases hc : contents0 a with
          | error e2 =>
            exact ⟨e2, by
              simp [collectBookTexts, hrefOf, ha, ht, hc, except_bind_ok, except_bind_error]⟩
          | ok t =>
            exact ⟨e, by
              simp [collectBookTexts, hrefOf, ha, ht, hc, he, except_bind_ok,
                except_map_error]⟩
        · exact ⟨e, by simp [collectBookTexts, hrefOf, ha, ht, he, except_bind_ok]⟩

/-- If some episode of the list raises, the whole loop raises (the loop has
no exception handler). -/
theorem scrapeEpisodes_mem_error (env : Env) (logOn : Bool) (eps : List Str)
    (ep : Str) (hmem : ep ∈ eps) (e : PyErr)
    (herr : (scrapeEpisode env logOn ep).1 = .error e) :
    ∃ e2, (scrapeEpisodes env logOn eps).1 = .error e2 := by
  induction eps with
  | nil => simp at hmem
  | cons x rest ih =>
    cases hx : scrapeEpisode env logOn x with
    | mk r1 lg1 =>
      cases r1 with
      | error e1 => exact ⟨e1, by simp [scrapeEpisodes, hx]⟩
      | ok c =>
        rcases List.mem_cons.mp hmem with rfl | hmem2
        · rw [hx] at herr
          simp at herr
        · obtain ⟨e2, he2⟩ := ih hmem2
          cases hrest : scrapeEpisodes env logOn rest with
          | mk r2 lg2 =>
            rw [hrest] at he2
            simp only at he2
            subst he2
            exact ⟨e2, by simp [scrapeEpisodes, hx, hrest]⟩

/- Claim theorems. -/

/-- The wrapper `get_books` returns the inner pipeline's result and log. -/
theorem get_books_result (env : Env) (year : Nat) (logOn : Bool) :
    (get_books env year logOn).result = (get_books_inner env logOn (base_url_year year)).1 ∧
      (get_books env year logOn).log = (get_books_inner env logOn (base_url_year year)).2 := by
  cases h : get_books_inner env logOn (base_url_year year) with
  | mk r lg => simp [get_books, h]

/-- C1 (counterexample): the claim predicts `is_target_url` returns false on
a URL with a numeric TLD, but on `https://amazon.c0m` the code returns true:
`re.match` is a prefix match, so the single lowercase letter `c` satisfies
`[a-z]+` and the trailing `0m` is tolerated. -/
theorem target_url_claim_counterexample :
    is_target_url (toL "https://amazon.c0m") = true := by decide

/-- C1 (amended): `is_target_url url` is true iff `url` starts with an http
or https scheme, an optional run of `w`/`.` characters, the token `amazon`,
then ONE arbitrary non-newline character (the unescaped regex dot), then at
least one lowercase ASCII letter; arbitrary trailing characters are
tolerated (anchored prefix match). -/
theorem is_target_url_iff_spec (s : Str) : is_target_url s = true ↔ TargetSpec s := by
  constructor
  · intro h
    simp only [is_target_url] at h
    split at h
    · exact absurd h (by simp)
    · rename_i r hms
      split at h
      · rename_i c l rest hstrip
        have hdrop := stripL_eq_some hstrip
        have hsub : WDotStr (r.takeWhile isWDot) := fun x hx => List.mem_takeWhile_imp hx
        have hr : r = r.takeWhile isWDot ++ (toL "amazon" ++ (c :: l :: rest)) := by
          conv_lhs => rw [← List.takeWhile_append_dropWhile isWDot r]
          rw [hdrop]
        obtain ⟨a, hAsub, hA⟩ : ∃ a, WDotStr a ∧ r = a ++ (toL "amazon" ++ (c :: l :: rest)) :=
          ⟨r.takeWhile isWDot, hsub, hr⟩
        simp only [Bool.and_eq_true, bne_iff_ne, ne_eq] at h
        refine ⟨a, c, l, rest, hAsub, h.1, h.2, ?_⟩
        rcases matchScheme_inv hms with hs | hs
        · left; rw [hs, hA]
        · right; rw [hs, hA]
      · exact absurd h (by simp)
  · rintro ⟨sub, c, l, rest, hsub, hc, hl, hs | hs⟩ <;> subst hs
    · have h0 : matchScheme (toL "http://" ++ (sub ++ (toL "amazon" ++ (c :: l :: rest)))) =
          some (sub ++ (toL "amazon" ++ (c :: l :: rest))) := matchScheme_http _
      have h1 : (sub ++ (toL "amazon" ++ (c :: l :: rest))).dropWhile isWDot =
          toL "amazon" ++ (c :: l :: rest) := by
        rw [dropWhile_all_append _ hsub]
        have e : toL "amazon" ++ (c :: l :: rest) = 'a' :: (toL "mazon" ++ (c :: l :: rest)) := rfl
        rw [e, dropWhile_cons_neg (by decide)]
      have h2 : stripL (toL "amazon") (toL "amazon" ++ (c :: l :: rest)) =
          some (c :: l :: rest) := stripL_append _ _
      simp only [is_target_url, h0, h1, h2]
      simp [Bool.and_eq_true, bne_iff_ne, hc, hl]
    · have h0 : matchScheme (toL "https://" ++ (sub ++ (toL "amazon" ++ (c :: l :: rest)))) =
          some (sub ++ (toL "amazon" ++ (c :: l :: rest))) := matchScheme_https _
      have h1 : (sub ++ (toL "amazon" ++ (c :: l :: rest))).dropWhile isWDot =
          toL "amazon" ++ (c :: l :: rest) := by
        rw [dropWhile_all_append _ hsub]
        have e : toL "amazon" ++ (c :: l :: rest) = 'a' :: (toL "mazon" ++ (c :: l :: rest)) := rfl
        rw [e, dropWhile_cons_neg (by decide)]
      have h2 : stripL (toL "amazon") (toL "amazon" ++ (c :: l :: rest)) =
          some (c :: l :: rest) := stripL_append _ _
      simp only [is_target_url, h0, h1, h2]
      simp [Bool.and_eq_true, bne_iff_ne, hc, hl]

/-- C1 (witness): the amended characterisation applied at a concrete URL. -/
theorem is_target_url_iff_spec_witness : TargetSpec (toL "https://www.amazon.com/b") :=
  (is_target_url_iff_spec (toL "https://www.amazon.com/b")).mp (by decide)

/-- C3 (counterexample): `https://seenunseen.in/episodes/2021/13/1/episode-5-x`
matches the episode template (components Y=2021, M=13, D=1, N=5) yet
`__get_episode_info` does not return the pair `(5, date(2021,13,1))`: the
`dt.datetime` constructor raises `ValueError` on month 13. -/
theorem episode_info_claim_counterexample :
    is_episode_url (toL "https://seenunseen.in/episodes/2021/13/1/episode-5-x") = true ∧
      get_episode_info (toL "https://seenunseen.in/episodes/2021/13/1/episode-5-x") =
        .error .valueError :=
  ⟨by decide, by decide⟩

/-- C3 (amended): for every URL built from the episode template with
components (scheme, Y, M, D, N, slug) — digit strings Y, M, D, N and a slug
whose first character is not a newline — WHOSE DATE COMPONENTS FORM A VALID
CALENDAR DATE, `__get_episode_info` returns exactly the pair
`(int(N), date(int(Y), int(M), int(D)))`: the episode number comes from the
fourth numeric group and the date from the year, month and day groups in
that order. -/
theorem get_episode_info_template (sch y m d n sl : Str) (c0 : Char) (dt : PyDate)
    (hsch : sch = toL "http://" ∨ sch = toL "https://")
    (hy : DigitsStr y) (hm : DigitsStr m) (hd : DigitsStr d) (hn : DigitsStr n)
    (hc0 : c0 ≠ '\n')
    (hdate : datetime (natOfDigits y) (natOfDigits m) (natOfDigits d) = some dt) :
    get_episode_info (epUrlOf sch y m d n (c0 :: sl)) = .ok (some (natOfDigits n, dt)) := by
  simp only [get_episode_info, ep_url_match_build sch y m d n sl c0 hsch hy hm hd hn hc0, hdate]

/-- C3 (witness): the amended theorem at the concrete URL
`https://seenunseen.in/episodes/2021/3/4/episode-212-art`. -/
theorem get_episode_info_template_witness :
    get_episode_info (epUrlOf (toL "https://") (toL "2021") (toL "3") (toL "4") (toL "212")
        ('a' :: toL "rt")) = .ok (some (natOfDigits (toL "212"), ⟨2021, 3, 4⟩)) :=
  get_episode_info_template (toL "https://") (toL "2021") (toL "3") (toL "4") (toL "212")
    (toL "rt") 'a' ⟨2021, 3, 4⟩ (Or.inr rfl) (by decide) (by decide) (by decide) (by decide)
    (by decide) (by decide)

/-- C7: `__get_episode_info` returns `None` exactly when `__is_episode_url`
returns false — both apply `re.match` with the same `ep_url_pattern` (a
matching URL never returns `None`: it returns the tuple or raises on an
invalid date). -/
theorem episode_info_none_iff_not_episode (url : Str) :
    get_episode_info url = .ok none ↔ is_episode_url url = false := by
  simp only [get_episode_info, is_episode_url]
  cases h : ep_url_match url with
  | none => simp
  | some g =>
    obtain ⟨y, m, d, n⟩ := g
    cases hdt : datetime (natOfDigits y) (natOfDigits m) (natOfDigits d) <;> simp [hdt]

/-- C7 (witness): both sides evaluated at a non-matching URL. -/
theorem episode_info_none_iff_not_episode_witness :
    get_episode_info (toL "https://other.example") = .ok none :=
  (episode_info_none_iff_not_episode (toL "https://other.example")).mpr (by decide)

/-- C2: when the fetch of the year index page fails, `get_books` does not
return a value: line 122's `None` flows into `base_page.findAll('a')` on
line 125, which raises `AttributeError`, and `get_books` re-raises it, so an
error propagates to the invoker instead of an empty/absent table. -/
theorem get_books_index_fetch_failure (env : Env) (year : Nat) (logOn : Bool) (e : Str)
    (h : env (base_url_year year) = .raises e) :
    (get_books env year logOn).result = .error .attributeError := by
  simp [get_books, get_books_inner, get_page_soup, h]

/-- C2 (witness): a network that always raises. -/
theorem get_books_index_fetch_failure_witness :
    (get_books envRaise 2021 true).result = .error .attributeError :=
  get_books_index_fetch_failure envRaise 2021 true (toL "boom") rfl

/-- C4 (code bug): on a transport exception the fetcher returns `None` and
writes exactly one log line — but that line is the constant
`Failed getting URL : {url} ; Error : {exp}` (the source forgot the
f-string prefix on line 50), which does not contain the URL; a non-exception
HTTP error status (here 404) is not treated as failure and yields the parsed
document. -/
theorem get_page_soup_failure_behaviour :
    get_page_soup (fun _ => .raises (toL "timeout")) true (toL "https://x.test") =
      (none, [failLogMsg]) ∧
    hasSub (toL "https://x.test") failLogMsg = false ∧
    get_page_soup (fun _ => .response 404 pageEp) true (toL "https://x.test") =
      (some pageEp, []) :=
  ⟨rfl, by decide, rfl⟩

/-- C8: with a configured log file path, the log destination is opened once
at the start of a `get_books` invocation and closed exactly once at its end,
and the handle field is reset, on every exit path — the environment is
arbitrary, so this covers normal returns, absent returns and propagated
exceptions alike (the `finally` block runs unconditionally). -/
theorem log_file_lifecycle (env : Env) (year : Nat) :
    (get_books env year true).fileEvents = [FileEv.openEv, FileEv.closeEv] ∧
      (get_books env year true).logFileOpenAfter = false := by
  cases h : get_books_inner env true (base_url_year year) with
  | mk r lg => simp [get_books, h]

/-- C10: the `Base page fetched` line of line 122 is written unconditionally
after the index-page fetch, even when that fetch failed: on the failure path
the log is exactly the (constant) fetch-failure line followed by
`Base page fetched`, and only then does the pipeline raise. -/
theorem base_page_logged_on_failed_fetch (env : Env) (year : Nat) (e : Str)
    (h : env (base_url_year year) = .raises e) :
    (get_books env year true).log = [failLogMsg, basePageMsg] ∧
      (get_books env year true).result = .error .attributeError := by
  constructor <;> simp [get_books, get_books_inner, get_page_soup, writeLog, h]

/-- C10 (witness): the failure-path log at a concrete environment. -/
theorem base_page_logged_on_failed_fetch_witness :
    (get_books envRaise 2021 true).log = [failLogMsg, basePageMsg] ∧
      (get_books envRaise 2021 true).result = .error .attributeError :=
  base_page_logged_on_failed_fetch envRaise 2021 (toL "boom") rfl

/-- C5: assuming the index page was fetched successfully (and its anchors
collected without error), `get_books` returns `None` exactly when every
episode of the deduplicated list was skipped (contributed no rows); and with
an index page yielding zero matching episode anchors, the result is `None`
and the log is exactly one `Base page fetched` line with no episode-fetch
lines. -/
theorem get_books_absent_iff_no_rows :
    (∀ (env : Env) (year : Nat) (logOn : Bool) (st : Nat) (page : Page) (urls : List Str)
        (r : Option (List Row)),
        env (base_url_year year) = .response st page →
        collectEpUrls page.anchors = .ok urls →
        (get_books env year logOn).result = .ok r →
        (r = none ↔ ∀ ep ∈ dedupUrls urls, (scrapeEpisode env logOn ep).1 = .ok none)) ∧
    (∀ (env : Env) (year : Nat) (st : Nat) (page : Page),
        env (base_url_year year) = .response st page →
        collectEpUrls page.anchors = .ok [] →
        (get_books env year true).result = .ok none ∧
          (get_books env year true).log = [basePageMsg]) := by
  constructor
  · intro env year logOn st page urls r henv hurls hrun
    rw [(get_books_result env year logOn).1] at hrun
    simp only [get_books_inner, get_page_soup, henv, hurls] at hrun
    cases hse : scrapeEpisodes env logOn (dedupUrls urls) with
    | mk r3 lg3 =>
      rw [hse] at hrun
      cases r3 with
      | error e2 => simp at hrun
      | ok dfs =>
        simp only [Except.ok.injEq] at hrun
        rw [← scrapeEpisodes_ok_nil_iff env logOn (dedupUrls urls) dfs lg3 hse, ← hrun]
        cases dfs with
        | nil => simp
        | cons a b => simp
  · intro env year st page henv hurls
    constructor
    · rw [(get_books_result env year true).1]
      simp [get_books_inner, get_page_soup, henv, hurls, dedupUrls, scrapeEpisodes]
    · rw [(get_books_result env year true).2]
      simp [get_books_inner, get_page_soup, henv, hurls, writeLog, dedupUrls, scrapeEpisodes]

/-- C5 (witness): both parts at an environment whose index page has no
anchors at all. -/
theorem get_books_absent_iff_no_rows_witness :
    ((none : Option (List Row)) = none ↔
      ∀ ep ∈ dedupUrls ([] : List Str), (scrapeEpisode envEmptyIndex true ep).1 = .ok none) ∧
    ((get_books envEmptyIndex 2021 true).result = .ok none ∧
      (get_books envEmptyIndex 2021 true).log = [basePageMsg]) :=
  ⟨get_books_absent_iff_no_rows.1 envEmptyIndex 2021 true 200 pageEmpty [] none rfl rfl rfl,
    get_books_absent_iff_no_rows.2 envEmptyIndex 2021 200 pageEmpty rfl rfl⟩

/-- C6: an episode whose fetch fails, or whose page has zero anchors
satisfying `is_target_url`, contributes no rows and raises no error, and the
remaining episodes are still processed; an episode with at least one target
anchor (and successful metadata extraction) emits its row set. -/
theorem episode_skip_and_emit :
    (∀ (env : Env) (logOn : Bool) (ep e : Str), env ep = .raises e →
        (scrapeEpisode env logOn ep).1 = .ok none) ∧
    (∀ (env : Env) (logOn : Bool) (ep : Str) (st : Nat) (page : Page),
        env ep = .response st page → collectBookTexts page.anchors = .ok [] →
        (scrapeEpisode env logOn ep).1 = .ok none) ∧
    (∀ (env : Env) (logOn : Bool) (l1 l2 : List Str) (ep : Str),
        (scrapeEpisode env logOn ep).1 = .ok none →
        (scrapeEpisodes env logOn (l1 ++ ep :: l2)).1 = (scrapeEpisodes env logOn (l1 ++ l2)).1) ∧
    (∀ (env : Env) (logOn : Bool) (ep : Str) (st : Nat) (page : Page) (books : List Str)
        (nv : Nat) (dt : PyDate),
        env ep = .response st page → collectBookTexts page.anchors = .ok books → books ≠ [] →
        get_episode_info ep = .ok (some (nv, dt)) →
        (scrapeEpisode env logOn ep).1 = .ok (some (nv, books))) := by
  refine ⟨?_, ?_, ?_, ?_⟩
  · intro env logOn ep e h
    simp [scrapeEpisode, get_page_soup, h]
  · intro env logOn ep st page henv hbooks
    simp [scrapeEpisode, get_page_soup, henv, hbooks]
  · intro env logOn l1 l2 ep h
    induction l1 with
    | nil =>
      simp only [List.nil_append]
      cases hep : scrapeEpisode env logOn ep with
      | mk r1 lg1 =>
        rw [hep] at h
        simp only at h
        subst h
        cases hrest : scrapeEpisodes env logOn l2 with
        | mk r2 lg2 =>
          cases r2 with
          | error e2 => simp [scrapeEpisodes, hep, hrest]
          | ok dfs => simp [scrapeEpisodes, hep, hrest]
    | cons x l1 ih =>
      simp only [List.cons_append]
      cases hx : scrapeEpisode env logOn x with
      | mk rx lgx =>
        cases hA : scrapeEpisodes env logOn (l1 ++ ep :: l2) with
        | mk rA lgA =>
          cases hB : scrapeEpisodes env logOn (l1 ++ l2) with
          | mk rB lgB =>
            have ih2 : rA = rB := by
              rw [hA, hB] at ih
              simpa using ih
            subst ih2
            cases rx with
            | error e => simp [scrapeEpisodes, hx]
            | ok c =>
              cases rA with
              | error e2 => simp [scrapeEpisodes, hx, hA, hB]
              | ok dfs => simp [scrapeEpisodes, hx, hA, hB]
  · intro env logOn ep st page books nv dt henv hbooks hne hinfo
    have hlen : ¬ books.length = 0 := by simpa [List.length_eq_zero] using hne
    simp [scrapeEpisode, get_page_soup, henv, hbooks, hlen, hinfo]

/-- C6 (witness): the four parts at concrete environments — a failing fetch,
a page with only a non-target anchor, skipping inside a loop, and a page
whose Amazon anchor emits `(212, Book A)`. -/
theorem episode_skip_and_emit_witness :
    (scrapeEpisode envRaise true (toL "e")).1 = .ok none ∧
    (scrapeEpisode envNoTarget true (toL "e")).1 = .ok none ∧
    (scrapeEpisodes envRaise true ([] ++ (toL "e") :: [])).1 =
      (scrapeEpisodes envRaise true ([] ++ [])).1 ∧
    (scrapeEpisode envScenario true ep1Url).1 = .ok (some (212, [toL "Book A"])) :=
  ⟨episode_skip_and_emit.1 envRaise true (toL "e") (toL "boom") rfl,
    episode_skip_and_emit.2.1 envNoTarget true (toL "e") 200 pageNoTarget rfl rfl,
    episode_skip_and_emit.2.2.1 envRaise true [] [] (toL "e") rfl,
    episode_skip_and_emit.2.2.2 envScenario true ep1Url 200 pageEp [toL "Book A"] 212
      ⟨2021, 3, 4⟩ rfl rfl (by decide) (by decide)⟩

/-- C9: a successfully fetched page containing an anchor without an href
attribute makes the pipeline raise instead of skipping that anchor — on the
index page the comprehension of line 125 raises `KeyError`; on an episode
page line 140 raises, and the error propagates out of the episode loop
uncaught. -/
theorem missing_href_raises :
    (∀ (env : Env) (logOn : Bool) (baseUrl : Str) (st : Nat) (page : Page),
        env baseUrl = .response st page → (∃ a ∈ page.anchors, a.href = none) →
        (get_books_inner env logOn baseUrl).1 = .error .keyError) ∧
    (∀ (env : Env) (logOn : Bool) (baseUrl : Str) (st : Nat) (page : Page) (urls : List Str)
        (ep : Str) (st2 : Nat) (page2 : Page),
        env baseUrl = .response st page → collectEpUrls page.anchors = .ok urls →
        ep ∈ urls → env ep = .response st2 page2 → (∃ a ∈ page2.anchors, a.href = none) →
        ∃ e, (get_books_inner env logOn baseUrl).1 = .error e) := by
  constructor
  · intro env logOn baseUrl st page henv hex
    have hc := collectEpUrls_missing_href page.anchors hex
    simp [get_books_inner, get_page_soup, henv, hc]
  · intro env logOn baseUrl st page urls ep st2 page2 henv hurls hmem henv2 hex
    obtain ⟨e, he⟩ := collectBookTexts_missing_href page2.anchors hex
    have hse : (scrapeEpisode env logOn ep).1 = .error e := by
      simp [scrapeEpisode, get_page_soup, henv2, he]
    obtain ⟨e2, h2⟩ := scrapeEpisodes_mem_error env logOn (dedupUrls urls) ep
      (mem_dedupUrls hmem) e hse
    cases hsx : scrapeEpisodes env logOn (dedupUrls urls) with
    | mk rr lgs =>
      rw [hsx] at h2
      simp only at h2
      subst h2
      exact ⟨e2, by simp [get_books_inner, get_page_soup, henv, hurls, hsx]⟩

/-- C9 (witness): an href-less anchor on the index page, and one on an
episode page. -/
theorem missing_href_raises_witness :
    (get_books_inner envIndexNoHref true (base_url_year 2021)).1 = .error .keyError ∧
    (∃ e, (get_books_inner envEpNoHref true (base_url_year 2021)).1 = .error e) :=
  ⟨missing_href_raises.1 envIndexNoHref true (base_url_year 2021) 200 pageNoHref rfl (by decide),
    missing_href_raises.2 envEpNoHref true (base_url_year 2021) 200 pageIndex1 [ep1Url] ep1Url
      200 pageNoHref rfl rfl (by decide) rfl (by decide)⟩

end SeenUnseen
